import Mathlib

/-!
# Session tokens of insapp-go (auth.go)

A shallow embedding of the token subsystem of `auth.go`: issuing an access and a
refresh token (`CreateNewTokens`), the refresh protocol `CheckAndRefreshTokens`
with the helpers it calls, and revocation (`RevokeRefreshToken`).

Modelling decisions.

* Time is whole Unix seconds (`Int`). One call of the protocol reads the clock
  several times; the model passes one reading `now` for the whole call, so
  `time.Now().Add(d).Unix()` is `now + d` with `d` in seconds.
* A token string is represented by what the JWT parser can observe of it
  (`TokenString`): the exit of the parser it reaches, the claims it carries, and
  whether its signature verifies under the public key. The keys are the pair
  loaded by `InitJWT`, so a string signed with the private key verifies.
* A nil-pointer dereference is an explicit outcome (`Outcome.panic`).
* The revocation store is explicit state threaded through the functions.
-/

namespace Insapp

/-! ## Data model -/

/-- TokenClaims is the JWT encoding format: the two fields of the repository's
struct followed by the fields of the embedded `jwt.StandardClaims`. Every field
has Go's zero value by default. -/
structure TokenClaims where
  Username : String := ""
  Role : String := ""
  Audience : String := ""
  ExpiresAt : Int := 0
  Id : String := ""
  IssuedAt : Int := 0
  Issuer : String := ""
  NotBefore : Int := 0
  Subject : String := ""
  deriving DecidableEq, Repr

/-- A token string, by the exit of `jwt.ParseWithClaims` it reaches.

* `unsplit text`: a string that does not consist of exactly three dot-separated
  segments (the empty string among them);
* `badHeader text`: three segments, the header segment does not decode;
* `badClaims c`: the claims segment does not decode, `c` is what the decoder
  left in the claims struct;
* `badAlg c`: the header names no registered signing method;
* `signed c sigOk`: a complete token with claims `c`; `sigOk` tells whether the
  signature verifies under the public key. -/
inductive TokenString where
  | unsplit (text : String)
  | badHeader (text : String)
  | badClaims (c : TokenClaims)
  | badAlg (c : TokenClaims)
  | signed (c : TokenClaims) (sigOk : Bool)
  deriving DecidableEq, Repr

/-- The empty string `""` returned on the failure paths. -/
def emptyString : TokenString := TokenString.unsplit ""

/-- A Go `error` value that is not nil: a `*jwt.ValidationError` with its
`Errors` bit set, or an error made by `errors.New` from a message. -/
inductive GoError where
  | validation (flags : Nat)
  | text (msg : String)
  deriving DecidableEq, Repr

/-- The error `errors.New("Unauthorized")`. -/
def Unauthorized : GoError := GoError.text "Unauthorized"

/-- The fields of `*jwt.Token` that the code reads: `Claims` (a nil interface or
a `*TokenClaims`) and `Valid`. -/
structure Token where
  Claims : Option TokenClaims
  Valid : Bool
  deriving DecidableEq, Repr

/-- What a Go call does: it returns a value, or it panics on a nil pointer. -/
inductive Outcome (α : Type) where
  | panic
  | ret (v : α)
  deriving DecidableEq, Repr

/-! ## Constants -/

/-- The constant `refreshTokenValidTime = time.Hour * 72`, in seconds. -/
def refreshTokenValidTime : Int := 72 * 3600

/-- The constant `authTokenValidTime = time.Minute * 15`, in seconds. -/
def authTokenValidTime : Int := 15 * 60

/-- Bit `1 << 0` of `jwt.ValidationError.Errors`: the token is malformed. -/
def ValidationErrorMalformed : Nat := 1

/-- Bit `1 << 1`: the token could not be verified (signing method problems). -/
def ValidationErrorUnverifiable : Nat := 2

/-- Bit `1 << 2`: signature validation failed. -/
def ValidationErrorSignatureInvalid : Nat := 4

/-- Bit `1 << 4`: EXP validation failed. -/
def ValidationErrorExpired : Nat := 16

/-- Bit `1 << 5`: IAT validation failed. -/
def ValidationErrorIssuedAt : Nat := 32

/-- Bit `1 << 7`: NBF validation failed. -/
def ValidationErrorNotValidYet : Nat := 128

/-! ## The JWT library (jwt-go v3), as called by auth.go -/

/-- The library's `verifyExp(exp, now, false)`: an absent expiry passes. -/
def verifyExp (exp now : Int) : Bool :=
  if exp = 0 then true else decide (now ≤ exp)

/-- The library's `verifyIat(iat, now, false)`. -/
def verifyIat (iat now : Int) : Bool :=
  if iat = 0 then true else decide (iat ≤ now)

/-- The library's `verifyNbf(nbf, now, false)`. -/
def verifyNbf (nbf now : Int) : Bool :=
  if nbf = 0 then true else decide (nbf ≤ now)

/-- The method `StandardClaims.Valid`, promoted to `TokenClaims`: the bit set of
the time checks that fail (0 when the claims are valid). -/
def claimsFlags (now : Int) (c : TokenClaims) : Nat :=
  (if verifyExp c.ExpiresAt now then 0 else ValidationErrorExpired) |||
  (if verifyIat c.IssuedAt now then 0 else ValidationErrorIssuedAt) |||
  (if verifyNbf c.NotBefore now then 0 else ValidationErrorNotValidYet)

/-- The call `jwt.ParseWithClaims(s, &TokenClaims{}, keyFunc)` with the key
function of auth.go, which always returns the public key. The first component is
the returned `*jwt.Token` (`none` for nil), the second the returned error. -/
def ParseWithClaims (now : Int) : TokenString → Option Token × Option GoError
  | TokenString.unsplit _ =>
      (none, some (GoError.validation ValidationErrorMalformed))
  | TokenString.badHeader _ =>
      (some { Claims := none, Valid := false },
        some (GoError.validation ValidationErrorMalformed))
  | TokenString.badClaims c =>
      (some { Claims := some c, Valid := false },
        some (GoError.validation ValidationErrorMalformed))
  | TokenString.badAlg c =>
      (some { Claims := some c, Valid := false },
        some (GoError.validation ValidationErrorUnverifiable))
  | TokenString.signed c sigOk =>
      let flags := claimsFlags now c |||
        (if sigOk then 0 else ValidationErrorSignatureInvalid)
      if flags = 0 then (some { Claims := some c, Valid := true }, none)
      else (some { Claims := some c, Valid := false }, some (GoError.validation flags))

/-- The call `jwt.NewWithClaims(RS256, c).SignedString(signKey)` with the loaded
private key: the string carrying `c` whose signature verifies. -/
def SignedString (c : TokenClaims) : TokenString × Option GoError :=
  (TokenString.signed c true, none)

/-! ## The revocation store -/

/-- The revocation store: the refresh-token identifiers registered as live. -/
structure Store where
  live : List String
  deriving DecidableEq, Repr

/-- The record returned by `StoreRefreshToken`; the code reads its `JTI`. -/
structure RefreshToken where
  JTI : String
  deriving DecidableEq, Repr

/-- An identifier that differs from every identifier of the list: it is longer
than each of them. -/
def newJTI (used : List String) : String :=
  String.mk (List.replicate ((used.map String.length).foldr max 0 + 1) 'j')

/-- Modelled from the spec: `StoreRefreshToken` is not among the source files.
The spec gives it as `store`: it allocates a new unique identifier and registers
it as live. -/
def StoreRefreshToken (s : Store) : RefreshToken × Store :=
  ({ JTI := newJTI s.live }, { live := newJTI s.live :: s.live })

/-- Modelled from the spec: `CheckRefreshToken` is not among the source files.
The spec gives it as `isValid`: true iff the identifier is currently live. -/
def CheckRefreshToken (s : Store) (jti : String) : Bool :=
  decide (jti ∈ s.live)

/-- Modelled from the spec: `DeleteRefreshToken` is not among the source files.
The spec gives it as `delete`: idempotent removal of the identifier. -/
def DeleteRefreshToken (s : Store) (jti : String) : Store :=
  { live := s.live.filter (fun k => decide (k ≠ jti)) }

/-! ## auth.go -/

/-- The function createAuthTokenString creates an auth token. -/
def createAuthTokenString (now : Int) (username role : String) :
    TokenString × Option GoError :=
  let authTokenExpiration := now + authTokenValidTime
  let authClaims : TokenClaims :=
    { Username := username, Role := role, ExpiresAt := authTokenExpiration }
  SignedString authClaims

/-- The function createRefreshTokenString creates a refresh token and registers
its identifier. -/
def createRefreshTokenString (now : Int) (s : Store) (username role : String) :
    (TokenString × Option GoError) × Store :=
  let refreshTokenExpiration := now + refreshTokenValidTime
  let (token, s1) := StoreRefreshToken s
  let refreshClaims : TokenClaims :=
    { Username := username, Role := role, Id := token.JTI,
      ExpiresAt := refreshTokenExpiration }
  (SignedString refreshClaims, s1)

/-- The function updateRefreshTokenExpiration: parse the refresh token and sign
new claims built from it. The parse error is only returned when the token
carries no claims; a nil token is dereferenced. -/
def updateRefreshTokenExpiration (now : Int) (refreshTokenString : TokenString) :
    Outcome (TokenString × Option GoError) :=
  match ParseWithClaims now refreshTokenString with
  | (none, _) => Outcome.panic
  | (some refreshToken, err) =>
    match refreshToken.Claims with
    | none => Outcome.ret (emptyString, err)
    | some refreshTokenClaims =>
      let refreshTokenExpiration := now + refreshTokenValidTime
      let refreshClaims : TokenClaims :=
        { Role := refreshTokenClaims.Role, Id := refreshTokenClaims.Id,
          ExpiresAt := refreshTokenExpiration }
      Outcome.ret (SignedString refreshClaims)

/-- The function updateAuthTokenString: issue a new auth token when the refresh
token is live and valid; delete the identifier of a live refresh token that is
not valid. -/
def updateAuthTokenString (now : Int) (s : Store)
    (authTokenString refreshTokenString : TokenString) :
    Outcome (TokenString × Option GoError) × Store :=
  match ParseWithClaims now refreshTokenString with
  | (none, _) => (Outcome.panic, s)
  | (some refreshToken, err) =>
    match refreshToken.Claims with
    | none => (Outcome.ret (emptyString, err), s)
    | some refreshTokenClaims =>
      if CheckRefreshToken s refreshTokenClaims.Id then
        if refreshToken.Valid then
          match ParseWithClaims now authTokenString with
          | (none, _) => (Outcome.panic, s)
          | (some authToken, err2) =>
            match authToken.Claims with
            | none => (Outcome.ret (emptyString, err2), s)
            | some authTokenClaims =>
              (Outcome.ret
                (createAuthTokenString now authTokenClaims.Username authTokenClaims.Role), s)
        else
          (Outcome.ret (emptyString, some Unauthorized),
            DeleteRefreshToken s refreshTokenClaims.Id)
      else
        (Outcome.ret (emptyString, some Unauthorized), s)

/-- The function CheckAndRefreshTokens renews the auth token if needed. The
result is (new refresh token, auth token, error) and the store afterwards. -/
def CheckAndRefreshTokens (now : Int) (s : Store)
    (authTokenString refreshTokenString : TokenString) :
    Outcome (TokenString × TokenString × Option GoError) × Store :=
  match ParseWithClaims now authTokenString with
  | (none, _) => (Outcome.panic, s)
  | (some authToken, err) =>
    if authToken.Claims.isSome && authToken.Valid then
      match updateRefreshTokenExpiration now refreshTokenString with
      | Outcome.panic => (Outcome.panic, s)
      | Outcome.ret (newRefreshTokenString, _) =>
        (Outcome.ret (newRefreshTokenString, authTokenString, none), s)
    else
      match err with
      | some (GoError.validation flags) =>
        if flags &&& (ValidationErrorExpired ||| ValidationErrorNotValidYet) ≠ 0 then
          match updateAuthTokenString now s authTokenString refreshTokenString with
          | (Outcome.panic, s1) => (Outcome.panic, s1)
          | (Outcome.ret (_, some e), s1) =>
            (Outcome.ret (emptyString, emptyString, some e), s1)
          | (Outcome.ret (newAuthTokenString, none), s1) =>
            match updateRefreshTokenExpiration now refreshTokenString with
            | Outcome.panic => (Outcome.panic, s1)
            | Outcome.ret (_, some e) =>
              (Outcome.ret (emptyString, emptyString, some e), s1)
            | Outcome.ret (newRefreshTokenString, none) =>
              (Outcome.ret (newRefreshTokenString, newAuthTokenString, none), s1)
        else (Outcome.ret (emptyString, emptyString, err), s)
      | _ => (Outcome.ret (emptyString, emptyString, err), s)

/-- The function RevokeRefreshToken: any parse error is answered with an error
before the token is touched; otherwise the identifier read from the claims is
deleted. The result is the returned error and the store afterwards. -/
def RevokeRefreshToken (now : Int) (s : Store) (refreshTokenString : TokenString) :
    Outcome (Option GoError) × Store :=
  match ParseWithClaims now refreshTokenString with
  | (_, some _) =>
    (Outcome.ret (some (GoError.text "Could not parse refresh token with claims")), s)
  | (none, none) => (Outcome.panic, s)
  | (some refreshToken, none) =>
    match refreshToken.Claims with
    | none =>
      (Outcome.ret (some (GoError.text "Could not read refresh token claims")), s)
    | some refreshTokenClaims =>
      (Outcome.ret none, DeleteRefreshToken s refreshTokenClaims.Id)

/-- The function CreateNewTokens creates auth and refresh tokens. The result is
(auth token, refresh token, error) and the store afterwards. -/
def CreateNewTokens (now : Int) (s : Store) (username role : String) :
    (TokenString × TokenString × Option GoError) × Store :=
  match createAuthTokenString now username role with
  | (_, some err) => ((emptyString, emptyString, some err), s)
  | (authTokenString, none) =>
    match createRefreshTokenString now s username role with
    | ((_, some err), s1) => ((emptyString, emptyString, some err), s1)
    | ((refreshTokenString, none), s1) =>
      ((authTokenString, refreshTokenString, none), s1)

/-! ## The two paths of CheckAndRefreshTokens -/

/-- The guard of the first branch of CheckAndRefreshTokens: the auth token comes
back from the parser with claims and `Valid` set. -/
def accessValid (now : Int) (authTokenString : TokenString) : Bool :=
  match ParseWithClaims now authTokenString with
  | (some authToken, _) => authToken.Claims.isSome && authToken.Valid
  | (none, _) => false

/-- The guard of the renewal branch of CheckAndRefreshTokens: the first branch
is not taken, the error is a validation error, and its bit set meets
`ValidationErrorExpired|ValidationErrorNotValidYet`. -/
def accessExpiredPath (now : Int) (authTokenString : TokenString) : Bool :=
  match ParseWithClaims now authTokenString with
  | (some authToken, some (GoError.validation flags)) =>
      !(authToken.Claims.isSome && authToken.Valid) &&
        decide (flags &&& (ValidationErrorExpired ||| ValidationErrorNotValidYet) ≠ 0)
  | _ => false

/-! ## Sample inputs -/

/-- A store in which the identifier `"j1"` is live. -/
def sampleStore : Store := { live := ["j1", "j2"] }

/-- A correctly signed access token of alice that expired at second 1000. -/
def expiredAccess : TokenString :=
  TokenString.signed { Username := "alice", Role := "admin", ExpiresAt := 1000 } true

/-- A correctly signed access token of alice that expires at second 5000. -/
def validAccess : TokenString :=
  TokenString.signed { Username := "alice", Role := "admin", ExpiresAt := 5000 } true

/-- A correctly signed refresh token of alice with identifier `"j1"`. -/
def liveRefresh : TokenString :=
  TokenString.signed
    { Username := "alice", Role := "admin", Id := "j1", ExpiresAt := 200000 } true

/-- An access token with alice replaced by mallory: its signature does not
verify, and its expiry instant 1000 is in the past at second 2000. -/
def forgedAccess : TokenString :=
  TokenString.signed { Username := "mallory", Role := "admin", ExpiresAt := 1000 } false

/-- A refresh string of three segments whose header segment does not decode. -/
def headerlessRefresh : TokenString := TokenString.badHeader "e30x.e30.c2ln"

/-- A refresh token naming the live identifier `"j1"` whose signature does not
verify (anyone who knows the identifier can write it). -/
def unverifiedRefresh : TokenString :=
  TokenString.signed
    { Username := "mallory", Role := "user", Id := "j1", ExpiresAt := 200000 } false

/-- A correctly signed refresh token of alice whose identifier `"j9"` is not
live in the sample store. -/
def revokedRefresh : TokenString :=
  TokenString.signed
    { Username := "alice", Role := "admin", Id := "j9", ExpiresAt := 200000 } true

/-- A correctly signed refresh token of alice, identifier `"j1"`, that expired
at second 1500. -/
def expiredRefresh : TokenString :=
  TokenString.signed
    { Username := "alice", Role := "admin", Id := "j1", ExpiresAt := 1500 } true

/-- A correctly signed access token of alice whose not-before instant 9000 is
still in the future at second 2000; it carries no expiry. -/
def earlyAccess : TokenString :=
  TokenString.signed { Username := "alice", Role := "admin", NotBefore := 9000 } true

/-- A correctly signed, unexpired refresh token of bob, identifier `"j2"`. -/
def bobRefresh : TokenString :=
  TokenString.signed
    { Username := "bob", Role := "user", Id := "j2", ExpiresAt := 200000 } true

/-! ## Lemmas on the parser -/

/-- A failed signature check leaves a flag whatever the time checks say. -/
theorem claimsFlags_or_sig_ne_zero (now : Int) (c : TokenClaims) :
    claimsFlags now c ||| ValidationErrorSignatureInvalid ≠ 0 := by
  unfold claimsFlags
  split <;> split <;> split <;> decide

/-- The parser on a complete token whose signature verifies. -/
theorem parse_signed_true (now : Int) (c : TokenClaims) :
    ParseWithClaims now (TokenString.signed c true) =
      if claimsFlags now c = 0 then (some { Claims := some c, Valid := true }, none)
      else (some { Claims := some c, Valid := false },
        some (GoError.validation (claimsFlags now c))) := by
  simp [ParseWithClaims]

/-- The parser on a complete token whose signature does not verify. -/
theorem parse_signed_false (now : Int) (c : TokenClaims) :
    ParseWithClaims now (TokenString.signed c false) =
      (some { Claims := some c, Valid := false },
        some (GoError.validation
          (claimsFlags now c ||| ValidationErrorSignatureInvalid))) := by
  simp [ParseWithClaims, claimsFlags_or_sig_ne_zero]

/-- A token parses as valid exactly when it is complete, its signature verifies
and no time check fails. -/
theorem parse_valid_iff (now : Int) (t : TokenString) (c : TokenClaims) :
    ParseWithClaims now t = (some { Claims := some c, Valid := true }, none) ↔
      t = TokenString.signed c true ∧ claimsFlags now c = 0 := by
  cases t with
  | unsplit x => simp [ParseWithClaims]
  | badHeader x => simp [ParseWithClaims]
  | badClaims d => simp [ParseWithClaims]
  | badAlg d => simp [ParseWithClaims]
  | signed d ok =>
    cases ok
    · simp [parse_signed_false]
    · rw [parse_signed_true]
      by_cases h : claimsFlags now d = 0
      · simp only [h, if_true]
        constructor
        · intro e
          simp only [Prod.mk.injEq, Option.some.injEq, Token.mk.injEq, and_true] at e
          subst e
          exact ⟨rfl, h⟩
        · rintro ⟨e, -⟩
          simp only [TokenString.signed.injEq, and_true] at e
          subst e
          rfl
      · simp only [h, if_false]
        constructor
        · intro e
          simp at e
        · rintro ⟨e, h2⟩
          simp only [TokenString.signed.injEq, and_true] at e
          subst e
          exact absurd h2 h

/-- The parser returns a nil token only for a string it cannot split. -/
theorem parse_token_none_iff (now : Int) (t : TokenString) :
    (ParseWithClaims now t).1 = none ↔ ∃ x, t = TokenString.unsplit x := by
  cases t with
  | unsplit x => simp [ParseWithClaims]
  | badHeader x => simp [ParseWithClaims]
  | badClaims d => simp [ParseWithClaims]
  | badAlg d => simp [ParseWithClaims]
  | signed d ok =>
    cases ok
    · simp [parse_signed_false]
    · rw [parse_signed_true]
      split <;> simp

/-- On a token the parser can split, updateRefreshTokenExpiration returns. -/
theorem updateRefreshTokenExpiration_returns (now : Int) (r : TokenString)
    (hr : (ParseWithClaims now r).1 ≠ none) :
    ∃ v, updateRefreshTokenExpiration now r = Outcome.ret v := by
  unfold updateRefreshTokenExpiration
  rcases h : ParseWithClaims now r with ⟨tok, err⟩
  rw [h] at hr
  cases tok with
  | none => exact absurd rfl hr
  | some tok =>
    cases hc : tok.Claims with
    | none => simp [hc]
    | some c => simp [hc]

/-- When the expiry check is the only failing time check, the expiry instant is
in the past. -/
theorem expired_of_claimsFlags (now : Int) (c : TokenClaims)
    (h : claimsFlags now c = ValidationErrorExpired) : c.ExpiresAt < now := by
  unfold claimsFlags at h
  by_cases he : verifyExp c.ExpiresAt now = true
  · rw [if_pos he] at h
    exfalso
    revert h
    split <;> split <;> decide
  · unfold verifyExp at he
    by_cases h0 : c.ExpiresAt = 0
    · simp [h0] at he
    · simp only [h0, if_false, decide_eq_true_eq] at he
      omega

/-- A token signed by the server that expires after `now` parses as valid when
it carries no issued-at and no not-before instant. -/
theorem claimsFlags_fresh (now : Int) (c : TokenClaims) (he : now ≤ c.ExpiresAt)
    (hi : c.IssuedAt = 0) (hn : c.NotBefore = 0) : claimsFlags now c = 0 := by
  unfold claimsFlags verifyExp verifyIat verifyNbf
  simp [hi, hn, he]

/-! ## Lemmas on the protocol -/

/-- On the access-valid path the call is a call of updateRefreshTokenExpiration
whose error is dropped. -/
theorem check_on_valid_path (now : Int) (s : Store) (a r : TokenString)
    (h : accessValid now a = true) :
    CheckAndRefreshTokens now s a r =
      match updateRefreshTokenExpiration now r with
      | Outcome.panic => (Outcome.panic, s)
      | Outcome.ret (newRefreshTokenString, _) =>
        (Outcome.ret (newRefreshTokenString, a, none), s) := by
  unfold accessValid at h
  unfold CheckAndRefreshTokens
  rcases hp : ParseWithClaims now a with ⟨tok, err⟩
  rw [hp] at h
  cases tok with
  | none => simp at h
  | some tok =>
    simp only at h
    simp only [h, if_true]

/-- On the access-expired path the call is updateAuthTokenString followed, when
that returns no error, by updateRefreshTokenExpiration. -/
theorem check_on_expired_path (now : Int) (s : Store) (a r : TokenString)
    (h : accessExpiredPath now a = true) :
    CheckAndRefreshTokens now s a r =
      match updateAuthTokenString now s a r with
      | (Outcome.panic, s1) => (Outcome.panic, s1)
      | (Outcome.ret (_, some e), s1) =>
        (Outcome.ret (emptyString, emptyString, some e), s1)
      | (Outcome.ret (newAuthTokenString, none), s1) =>
        match updateRefreshTokenExpiration now r with
        | Outcome.panic => (Outcome.panic, s1)
        | Outcome.ret (_, some e) =>
          (Outcome.ret (emptyString, emptyString, some e), s1)
        | Outcome.ret (newRefreshTokenString, none) =>
          (Outcome.ret (newRefreshTokenString, newAuthTokenString, none), s1) := by
  unfold accessExpiredPath at h
  unfold CheckAndRefreshTokens
  rcases hp : ParseWithClaims now a with ⟨tok, err⟩
  rw [hp] at h
  cases tok with
  | none => simp at h
  | some tok =>
    cases err with
    | none => simp at h
    | some e =>
      cases e with
      | text m => simp at h
      | validation flags =>
        simp only [Bool.and_eq_true, Bool.not_eq_true', decide_eq_true_eq] at h
        obtain ⟨h1, h2⟩ := h
        simp only [h1, Bool.false_eq_true, if_false, h2, ne_eq, not_false_eq_true, if_true]

/-- A refresh token that carries claims whose identifier is not live makes
updateAuthTokenString return Unauthorized and leave the store as it is. -/
theorem updateAuthTokenString_not_live (now : Int) (s : Store) (a r : TokenString)
    (rtok : Token) (rerr : Option GoError) (c : TokenClaims)
    (hr : ParseWithClaims now r = (some rtok, rerr)) (hc : rtok.Claims = some c)
    (hl : CheckRefreshToken s c.Id = false) :
    updateAuthTokenString now s a r =
      (Outcome.ret (emptyString, some Unauthorized), s) := by
  unfold updateAuthTokenString
  rw [hr]
  simp only [hc, hl, Bool.false_eq_true, if_false]

/-- An identifier is not live once it is deleted. -/
theorem check_delete_self (s : Store) (j : String) :
    CheckRefreshToken (DeleteRefreshToken s j) j = false := by
  simp [CheckRefreshToken, DeleteRefreshToken]

/-- Deleting an identifier leaves the liveness of every other one as it was. -/
theorem check_delete_other (s : Store) (j k : String) (h : k ≠ j) :
    CheckRefreshToken (DeleteRefreshToken s j) k = CheckRefreshToken s k := by
  simp [CheckRefreshToken, DeleteRefreshToken, h]

/-- On a token that carries claims, updateRefreshTokenExpiration signs the role
and the identifier read from it with the expiry `now + 72h`, and nothing else. -/
theorem updateRefreshTokenExpiration_claims (now : Int) (r : TokenString)
    (rtok : Token) (rerr : Option GoError) (c : TokenClaims)
    (hr : ParseWithClaims now r = (some rtok, rerr)) (hc : rtok.Claims = some c) :
    updateRefreshTokenExpiration now r =
      Outcome.ret (TokenString.signed
        { Role := c.Role, Id := c.Id, ExpiresAt := now + 259200 } true, none) := by
  unfold updateRefreshTokenExpiration
  rw [hr]
  simp only [hc, SignedString, refreshTokenValidTime]
  rfl

/-- The parser returns no error only together with a token that has claims and
is valid. -/
theorem parse_no_error (now : Int) (t : TokenString) (tok : Token)
    (h : ParseWithClaims now t = (some tok, none)) :
    tok.Claims.isSome = true ∧ tok.Valid = true := by
  cases t with
  | unsplit x => simp [ParseWithClaims] at h
  | badHeader x => simp [ParseWithClaims] at h
  | badClaims d => simp [ParseWithClaims] at h
  | badAlg d => simp [ParseWithClaims] at h
  | signed d ok =>
    cases ok
    · simp [parse_signed_false] at h
    · rw [parse_signed_true] at h
      split at h
      · simp only [Prod.mk.injEq, Option.some.injEq, and_true] at h
        rw [← h]
        exact ⟨rfl, rfl⟩
      · simp at h

/-- A call that returns a nil error was made on the access-valid path or on the
access-expired path. -/
theorem success_path (now : Int) (s s1 : Store) (a r nr na : TokenString)
    (h : CheckAndRefreshTokens now s a r = (Outcome.ret (nr, na, none), s1)) :
    accessValid now a = true ∨ accessExpiredPath now a = true := by
  by_cases hv : accessValid now a = true
  · exact Or.inl hv
  · right
    unfold accessValid at hv
    unfold CheckAndRefreshTokens at h
    unfold accessExpiredPath
    rcases hp : ParseWithClaims now a with ⟨tok, err⟩
    rw [hp] at h hv
    cases tok with
    | none => simp at h
    | some tok =>
      simp only at hv
      simp only [hv, if_false] at h
      cases err with
      | none =>
        have := parse_no_error now a tok hp
        simp [this.1, this.2] at hv
      | some e =>
        cases e with
        | text m => simp at h
        | validation flags =>
          by_cases hm :
              flags &&& (ValidationErrorExpired ||| ValidationErrorNotValidYet) ≠ 0
          · simp only [Bool.and_eq_true, Bool.not_eq_true', decide_eq_true_eq]
            exact ⟨by simpa using hv, hm⟩
          · simp only [hm, if_false] at h
            simp at h

/-- A refresh token made by createRefreshTokenString is correctly signed and
expires 72 hours after the instant it is made. -/
theorem createRefreshTokenString_token (t0 : Int) (s0 : Store) (u role : String) :
    (createRefreshTokenString t0 s0 u role).1 =
      (TokenString.signed
        { Username := u, Role := role, Id := newJTI s0.live,
          ExpiresAt := t0 + 259200 } true, none) := by
  simp only [createRefreshTokenString, StoreRefreshToken, SignedString,
    refreshTokenValidTime]
  rfl

/-! ## The claims -/

/-- C1: when the access token parses as valid and the parser can split the
refresh token string into a token, CheckAndRefreshTokens returns a nil error and
its second result is exactly the access token string it was given. -/
theorem C1_valid_access_returned_unchanged (now : Int) (s : Store)
    (a r : TokenString) (ca : TokenClaims)
    (ha : ParseWithClaims now a = (some { Claims := some ca, Valid := true }, none))
    (hr : (ParseWithClaims now r).1 ≠ none) :
    ∃ nr, CheckAndRefreshTokens now s a r = (Outcome.ret (nr, a, none), s) := by
  obtain ⟨v, hv⟩ := updateRefreshTokenExpiration_returns now r hr
  obtain ⟨nr, e⟩ := v
  exact ⟨nr, by simp [CheckAndRefreshTokens, ha, hv]⟩

/-- Witness of C1: a valid access token presented with a live refresh token. -/
theorem C1_valid_access_returned_unchanged_witness :
    ∃ nr, CheckAndRefreshTokens 2000 sampleStore validAccess liveRefresh =
      (Outcome.ret (nr, validAccess, none), sampleStore) :=
  C1_valid_access_returned_unchanged 2000 sampleStore validAccess liveRefresh
    { Username := "alice", Role := "admin", ExpiresAt := 5000 } (by decide) (by decide)

/-- C2: a correctly signed access token whose only validation failure is
expiration, presented with a refresh token that parses as valid and whose
identifier is live, is renewed: the call succeeds, the new access token carries
the username and role of the old one, no identifier, and expires at
now + 15 minutes (later than the old expiry); the store is unchanged and the
identifier is still live. -/
theorem C2_expired_access_renewed (now : Int) (s : Store) (ca cr : TokenClaims)
    (ha : claimsFlags now ca = ValidationErrorExpired)
    (hr : claimsFlags now cr = 0)
    (hl : CheckRefreshToken s cr.Id = true) :
    (∃ nr, CheckAndRefreshTokens now s (TokenString.signed ca true)
        (TokenString.signed cr true) =
      (Outcome.ret (nr,
        TokenString.signed
          { Username := ca.Username, Role := ca.Role, Id := "",
            ExpiresAt := now + 900 } true,
        none), s)) ∧
    ca.ExpiresAt < now + 900 ∧
    CheckRefreshToken
      (CheckAndRefreshTokens now s (TokenString.signed ca true)
        (TokenString.signed cr true)).2 cr.Id = true := by
  have hpa : ParseWithClaims now (TokenString.signed ca true) =
      (some { Claims := some ca, Valid := false },
        some (GoError.validation ValidationErrorExpired)) := by
    rw [parse_signed_true, ha]; rfl
  have hpr : ParseWithClaims now (TokenString.signed cr true) =
      (some { Claims := some cr, Valid := true }, none) := by
    rw [parse_signed_true, hr]; rfl
  have hcall : CheckAndRefreshTokens now s (TokenString.signed ca true)
        (TokenString.signed cr true) =
      (Outcome.ret (TokenString.signed
          { Role := cr.Role, Id := cr.Id, ExpiresAt := now + 259200 } true,
        TokenString.signed
          { Username := ca.Username, Role := ca.Role, Id := "",
            ExpiresAt := now + 900 } true,
        none), s) := by
    simp [CheckAndRefreshTokens, updateAuthTokenString, updateRefreshTokenExpiration,
      createAuthTokenString, SignedString, hpa, hpr, hl, ValidationErrorExpired,
      ValidationErrorNotValidYet, authTokenValidTime, refreshTokenValidTime]
  refine ⟨⟨_, hcall⟩, ?_, ?_⟩
  · have := expired_of_claimsFlags now ca ha
    omega
  · rw [hcall]; exact hl

/-- Witness of C2: alice's access token expired at 1000, the call is made at
2000 with her live refresh token. -/
theorem C2_expired_access_renewed_witness :
    (∃ nr, CheckAndRefreshTokens 2000 sampleStore expiredAccess liveRefresh =
      (Outcome.ret (nr,
        TokenString.signed
          { Username := "alice", Role := "admin", Id := "", ExpiresAt := 2000 + 900 } true,
        none), sampleStore)) ∧
    (1000 : Int) < 2000 + 900 ∧
    CheckRefreshToken
      (CheckAndRefreshTokens 2000 sampleStore expiredAccess liveRefresh).2 "j1" = true :=
  C2_expired_access_renewed 2000 sampleStore
    { Username := "alice", Role := "admin", ExpiresAt := 1000 }
    { Username := "alice", Role := "admin", Id := "j1", ExpiresAt := 200000 }
    (by decide) (by decide) (by decide)

/-- C3, at the failing input: an access token whose signature does not verify
and whose expiry is in the past, presented at second 2000 with a valid live
refresh token, is renewed. The parser reports the flags signature-invalid and
expired (4 + 16 = 20), the call returns a nil error and a new, correctly signed
access token carrying the username and role read from the unverified token. -/
theorem C3_forged_expired_access_is_renewed :
    ParseWithClaims 2000 forgedAccess =
      (some { Claims := some { Username := "mallory", Role := "admin", ExpiresAt := 1000 },
              Valid := false },
        some (GoError.validation 20)) ∧
    CheckAndRefreshTokens 2000 sampleStore forgedAccess liveRefresh =
      (Outcome.ret
        (TokenString.signed { Role := "admin", Id := "j1", ExpiresAt := 261200 } true,
         TokenString.signed
           { Username := "mallory", Role := "admin", ExpiresAt := 2900 } true,
         none), sampleStore) := by
  decide

/-- C4 as stated fails at second 2000 with alice's expired access token.
(1) A refresh string whose header does not decode: the error returned is the
parser's validation error, not Unauthorized. (2) A refresh token whose signature
does not verify and that names the live identifier `"j1"`: the identifier is
deleted from the store. -/
theorem C4_counterexample :
    (CheckAndRefreshTokens 2000 sampleStore expiredAccess headerlessRefresh =
        (Outcome.ret (emptyString, emptyString,
          some (GoError.validation ValidationErrorMalformed)), sampleStore) ∧
      GoError.validation ValidationErrorMalformed ≠ Unauthorized) ∧
    (CheckRefreshToken sampleStore "j1" = true ∧
      CheckAndRefreshTokens 2000 sampleStore expiredAccess unverifiedRefresh =
        (Outcome.ret (emptyString, emptyString, some Unauthorized),
          { live := ["j2"] }) ∧
      CheckRefreshToken
        (CheckAndRefreshTokens 2000 sampleStore expiredAccess unverifiedRefresh).2
        "j1" = false) := by
  decide

/-- C4, amended: on the access-expired path, a refresh token that the parser
can split but does not accept is rejected. When it yields no claims the call
fails with the parser's error, which is the malformed-token validation error,
and the store is unchanged. When it yields claims the call fails with
Unauthorized, and the store is unchanged if the identifier read from the token
is not live. -/
theorem C4_unaccepted_refresh_rejected (now : Int) (s : Store) (a r : TokenString)
    (rtok : Token) (rerr : Option GoError)
    (ha : accessExpiredPath now a = true)
    (hr : ParseWithClaims now r = (some rtok, rerr))
    (hv : rtok.Valid = false) :
    (rtok.Claims = none →
      rerr = some (GoError.validation ValidationErrorMalformed) ∧
      CheckAndRefreshTokens now s a r =
        (Outcome.ret (emptyString, emptyString,
          some (GoError.validation ValidationErrorMalformed)), s)) ∧
    (∀ c, rtok.Claims = some c →
      (CheckAndRefreshTokens now s a r).1 =
        Outcome.ret (emptyString, emptyString, some Unauthorized)) ∧
    (∀ c, rtok.Claims = some c → CheckRefreshToken s c.Id = false →
      (CheckAndRefreshTokens now s a r).2 = s) := by
  refine ⟨?_, ?_, ?_⟩
  · intro hc
    have herr : rerr = some (GoError.validation ValidationErrorMalformed) := by
      cases r with
      | unsplit x => simp [ParseWithClaims] at hr
      | badHeader x =>
        simp only [ParseWithClaims, Prod.mk.injEq] at hr
        exact hr.2.symm
      | badClaims d =>
        simp only [ParseWithClaims, Prod.mk.injEq, Option.some.injEq] at hr
        rw [← hr.1] at hc
        simp at hc
      | badAlg d =>
        simp only [ParseWithClaims, Prod.mk.injEq, Option.some.injEq] at hr
        rw [← hr.1] at hc
        simp at hc
      | signed d ok =>
        exfalso
        cases ok
        · rw [parse_signed_false] at hr
          simp only [Prod.mk.injEq, Option.some.injEq] at hr
          rw [← hr.1] at hc
          simp at hc
        · rw [parse_signed_true] at hr
          split at hr <;>
            · simp only [Prod.mk.injEq, Option.some.injEq] at hr
              rw [← hr.1] at hc
              simp at hc
    refine ⟨herr, ?_⟩
    rw [check_on_expired_path now s a r ha]
    unfold updateAuthTokenString
    rw [hr]
    simp only [hc, herr]
  · intro c hc
    rw [check_on_expired_path now s a r ha]
    unfold updateAuthTokenString
    rw [hr]
    by_cases hl : CheckRefreshToken s c.Id = true
    · simp only [hc, hv, hl, Bool.false_eq_true, if_false, if_true]
    · simp only [hc, hl, Bool.false_eq_true, if_false]
  · intro c hc hl
    rw [check_on_expired_path now s a r ha,
      updateAuthTokenString_not_live now s a r rtok rerr c hr hc hl]

/-- Witness of C4 (amended): at second 2000, alice's expired access token with
a headerless refresh string, and with an unverified refresh token naming an
identifier that is not live. -/
theorem C4_unaccepted_refresh_rejected_witness :
    CheckAndRefreshTokens 2000 sampleStore expiredAccess headerlessRefresh =
      (Outcome.ret (emptyString, emptyString,
        some (GoError.validation ValidationErrorMalformed)), sampleStore) ∧
    (CheckAndRefreshTokens 2000 sampleStore expiredAccess
        (TokenString.signed { Id := "j9", ExpiresAt := 200000 } false)).1 =
      Outcome.ret (emptyString, emptyString, some Unauthorized) ∧
    (CheckAndRefreshTokens 2000 sampleStore expiredAccess
        (TokenString.signed { Id := "j9", ExpiresAt := 200000 } false)).2 =
      sampleStore :=
  ⟨((C4_unaccepted_refresh_rejected 2000 sampleStore expiredAccess headerlessRefresh
      { Claims := none, Valid := false }
      (some (GoError.validation ValidationErrorMalformed))
      (by decide) (by decide) rfl).1 rfl).2,
   (C4_unaccepted_refresh_rejected 2000 sampleStore expiredAccess
      (TokenString.signed { Id := "j9", ExpiresAt := 200000 } false)
      { Claims := some { Id := "j9", ExpiresAt := 200000 }, Valid := false }
      (some (GoError.validation ValidationErrorSignatureInvalid))
      (by decide) (by decide) rfl).2.1 { Id := "j9", ExpiresAt := 200000 } rfl,
   (C4_unaccepted_refresh_rejected 2000 sampleStore expiredAccess
      (TokenString.signed { Id := "j9", ExpiresAt := 200000 } false)
      { Claims := some { Id := "j9", ExpiresAt := 200000 }, Valid := false }
      (some (GoError.validation ValidationErrorSignatureInvalid))
      (by decide) (by decide) rfl).2.2 { Id := "j9", ExpiresAt := 200000 } rfl
        (by decide)⟩

/-- C5: on the access-expired path, a refresh token whose identifier is not
live makes CheckAndRefreshTokens fail with Unauthorized and return empty token
strings, whatever expiry instant the token carries, and the store is unchanged. -/
theorem C5_revoked_refresh_unauthorized (now : Int) (s : Store) (a r : TokenString)
    (rtok : Token) (rerr : Option GoError) (c : TokenClaims)
    (ha : accessExpiredPath now a = true)
    (hr : ParseWithClaims now r = (some rtok, rerr))
    (hc : rtok.Claims = some c)
    (hl : CheckRefreshToken s c.Id = false) :
    CheckAndRefreshTokens now s a r =
      (Outcome.ret (emptyString, emptyString, some Unauthorized), s) := by
  rw [check_on_expired_path now s a r ha,
    updateAuthTokenString_not_live now s a r rtok rerr c hr hc hl]

/-- Witness of C5: a correctly signed, unexpired refresh token whose identifier
`"j9"` is not live. -/
theorem C5_revoked_refresh_unauthorized_witness :
    CheckAndRefreshTokens 2000 sampleStore expiredAccess revokedRefresh =
      (Outcome.ret (emptyString, emptyString, some Unauthorized), sampleStore) :=
  C5_revoked_refresh_unauthorized 2000 sampleStore expiredAccess revokedRefresh
    { Claims := some { Username := "alice", Role := "admin", Id := "j9",
                       ExpiresAt := 200000 },
      Valid := true }
    none
    { Username := "alice", Role := "admin", Id := "j9", ExpiresAt := 200000 }
    (by decide) (by decide) rfl (by decide)

/-- C6: on the access-expired path, a correctly signed refresh token that is
expired and whose identifier is live makes CheckAndRefreshTokens fail with
Unauthorized; the store afterwards is the store with that identifier deleted, so
the identifier is no longer live and every other identifier keeps its liveness. -/
theorem C6_expired_refresh_deleted (now : Int) (s : Store) (a : TokenString)
    (cr : TokenClaims)
    (ha : accessExpiredPath now a = true)
    (he : verifyExp cr.ExpiresAt now = false)
    (hl : CheckRefreshToken s cr.Id = true) :
    CheckAndRefreshTokens now s a (TokenString.signed cr true) =
      (Outcome.ret (emptyString, emptyString, some Unauthorized),
        DeleteRefreshToken s cr.Id) ∧
    CheckRefreshToken
      (CheckAndRefreshTokens now s a (TokenString.signed cr true)).2 cr.Id = false ∧
    ∀ k, k ≠ cr.Id →
      CheckRefreshToken
        (CheckAndRefreshTokens now s a (TokenString.signed cr true)).2 k =
      CheckRefreshToken s k := by
  have hf : claimsFlags now cr ≠ 0 := by
    unfold claimsFlags
    rw [he]
    simp only [Bool.false_eq_true, if_false]
    split <;> split <;> decide
  have hcall : CheckAndRefreshTokens now s a (TokenString.signed cr true) =
      (Outcome.ret (emptyString, emptyString, some Unauthorized),
        DeleteRefreshToken s cr.Id) := by
    rw [check_on_expired_path now s a _ ha]
    unfold updateAuthTokenString
    rw [parse_signed_true]
    simp only [hf, if_false, hl, if_true, Bool.false_eq_true]
  refine ⟨hcall, ?_, ?_⟩
  · rw [hcall]; exact check_delete_self s cr.Id
  · intro k hk
    rw [hcall]; exact check_delete_other s cr.Id k hk

/-- Witness of C6: alice's refresh token `"j1"` expired at 1500, presented at
second 2000 with her expired access token. -/
theorem C6_expired_refresh_deleted_witness :
    CheckAndRefreshTokens 2000 sampleStore expiredAccess expiredRefresh =
      (Outcome.ret (emptyString, emptyString, some Unauthorized),
        DeleteRefreshToken sampleStore "j1") ∧
    CheckRefreshToken
      (CheckAndRefreshTokens 2000 sampleStore expiredAccess expiredRefresh).2 "j1"
        = false ∧
    ∀ k, k ≠ "j1" →
      CheckRefreshToken
        (CheckAndRefreshTokens 2000 sampleStore expiredAccess expiredRefresh).2 k =
      CheckRefreshToken sampleStore k :=
  C6_expired_refresh_deleted 2000 sampleStore expiredAccess
    { Username := "alice", Role := "admin", Id := "j1", ExpiresAt := 1500 }
    (by decide) (by decide) (by decide)

/-- C7, at the failing input: renewing alice's refresh token drops the
username. updateRefreshTokenExpiration copies the role and the identifier into
the new claims and leaves `Username` at its zero value, so the refresh token
returned on the access-valid path and on the access-expired path carries the
username `""` where the presented one carries `"alice"`. -/
theorem C7_renewed_refresh_drops_username :
    updateRefreshTokenExpiration 2000 liveRefresh =
      Outcome.ret (TokenString.signed
        { Username := "", Role := "admin", Id := "j1", ExpiresAt := 261200 } true,
        none) ∧
    CheckAndRefreshTokens 2000 sampleStore validAccess liveRefresh =
      (Outcome.ret
        (TokenString.signed
          { Username := "", Role := "admin", Id := "j1", ExpiresAt := 261200 } true,
         validAccess, none), sampleStore) ∧
    CheckAndRefreshTokens 2000 sampleStore expiredAccess liveRefresh =
      (Outcome.ret
        (TokenString.signed
          { Username := "", Role := "admin", Id := "j1", ExpiresAt := 261200 } true,
         TokenString.signed
          { Username := "alice", Role := "admin", ExpiresAt := 2900 } true,
         none), sampleStore) := by
  decide

/-- C8: for a refresh token carrying the identifier j, the refresh token made by
updateRefreshTokenExpiration carries j and expires at now + 259200 (72 hours),
and so does the refresh token returned by every call of CheckAndRefreshTokens
that returns a nil error. -/
theorem C8_renewed_refresh_id_and_expiry (now : Int) (r : TokenString)
    (rtok : Token) (rerr : Option GoError) (c : TokenClaims)
    (hr : ParseWithClaims now r = (some rtok, rerr)) (hc : rtok.Claims = some c) :
    (∃ c2, updateRefreshTokenExpiration now r =
        Outcome.ret (TokenString.signed c2 true, none) ∧
      c2.Id = c.Id ∧ c2.ExpiresAt = now + 259200) ∧
    (∀ (s s1 : Store) (a nr na : TokenString),
      CheckAndRefreshTokens now s a r = (Outcome.ret (nr, na, none), s1) →
      ∃ c2, nr = TokenString.signed c2 true ∧
        c2.Id = c.Id ∧ c2.ExpiresAt = now + 259200) := by
  have hu := updateRefreshTokenExpiration_claims now r rtok rerr c hr hc
  refine ⟨⟨_, hu, rfl, rfl⟩, ?_⟩
  intro s s1 a nr na h
  refine ⟨{ Role := c.Role, Id := c.Id, ExpiresAt := now + 259200 }, ?_, rfl, rfl⟩
  rcases success_path now s s1 a r nr na h with hv | he
  · rw [check_on_valid_path now s a r hv, hu] at h
    simp only [Prod.mk.injEq, Outcome.ret.injEq] at h
    exact h.1.1.symm
  · rw [check_on_expired_path now s a r he] at h
    rcases hq : updateAuthTokenString now s a r with ⟨o, s2⟩
    rw [hq] at h
    cases o with
    | panic => simp at h
    | ret v =>
      obtain ⟨x, e⟩ := v
      cases e with
      | some e => simp at h
      | none =>
        simp only [hu, Prod.mk.injEq, Outcome.ret.injEq] at h
        exact h.1.1.symm

/-- Witness of C8: alice's live refresh token `"j1"` at second 2000. -/
theorem C8_renewed_refresh_id_and_expiry_witness :
    (∃ c2, updateRefreshTokenExpiration 2000 liveRefresh =
        Outcome.ret (TokenString.signed c2 true, none) ∧
      c2.Id = "j1" ∧ c2.ExpiresAt = 2000 + 259200) ∧
    (∀ (s s1 : Store) (a nr na : TokenString),
      CheckAndRefreshTokens 2000 s a liveRefresh = (Outcome.ret (nr, na, none), s1) →
      ∃ c2, nr = TokenString.signed c2 true ∧
        c2.Id = "j1" ∧ c2.ExpiresAt = 2000 + 259200) :=
  C8_renewed_refresh_id_and_expiry 2000 liveRefresh
    { Claims := some { Username := "alice", Role := "admin", Id := "j1",
                       ExpiresAt := 200000 },
      Valid := true }
    none
    { Username := "alice", Role := "admin", Id := "j1", ExpiresAt := 200000 }
    (by decide) rfl

/-- C9 as stated fails when the call is made in the clock second of the
issuance: a refresh token made by createRefreshTokenString at second 1000 and
presented at second 1000 with a valid access token comes back with the expiry
instant 260200 it already had, which is not strictly later. -/
theorem C9_counterexample :
    (createRefreshTokenString 1000 sampleStore "alice" "admin").1.1 =
      TokenString.signed
        { Username := "alice", Role := "admin", Id := "jjj", ExpiresAt := 260200 } true ∧
    CheckAndRefreshTokens 1000 sampleStore validAccess
        (createRefreshTokenString 1000 sampleStore "alice" "admin").1.1 =
      (Outcome.ret
        (TokenString.signed { Role := "admin", Id := "jjj", ExpiresAt := 260200 } true,
         validAccess, none), sampleStore) ∧
    ¬ ((260200 : Int) < 260200) := by
  decide

/-- C9, amended: when the access token is still valid and the refresh token
presented was issued at second t0 (by createRefreshTokenString, or by an
earlier renewal), a call at a second now with t0 ≤ now returns a refresh token
whose expiry is not earlier than the expiry of the presented one, and is
strictly later exactly when the call is made in a later clock second than the
issuance. -/
theorem C9_renewed_expiry_not_earlier (t0 now : Int) (s0 s : Store)
    (u role : String) (a r : TokenString)
    (ht : t0 ≤ now) (ha : accessValid now a = true)
    (hiss : r = (createRefreshTokenString t0 s0 u role).1.1 ∨
      ∃ r0, updateRefreshTokenExpiration t0 r0 = Outcome.ret (r, none)) :
    ∃ c0 c1, r = TokenString.signed c0 true ∧
      CheckAndRefreshTokens now s a r =
        (Outcome.ret (TokenString.signed c1 true, a, none), s) ∧
      c0.ExpiresAt ≤ c1.ExpiresAt ∧
      (c0.ExpiresAt < c1.ExpiresAt ↔ t0 < now) := by
  have key : ∃ c0, r = TokenString.signed c0 true ∧ c0.ExpiresAt = t0 + 259200 := by
    rcases hiss with h | ⟨r0, h⟩
    · rw [createRefreshTokenString_token] at h
      exact ⟨_, h, rfl⟩
    · unfold updateRefreshTokenExpiration at h
      rcases hp : ParseWithClaims t0 r0 with ⟨tok, err⟩
      rw [hp] at h
      cases tok with
      | none => simp at h
      | some tok =>
        cases hc : tok.Claims with
        | none =>
          simp only [hc, Outcome.ret.injEq, Prod.mk.injEq] at h
          cases r0 with
          | unsplit x => simp [ParseWithClaims] at hp
          | badHeader x =>
            simp only [ParseWithClaims, Prod.mk.injEq] at hp
            rw [← hp.2] at h
            simp at h
          | badClaims d =>
            simp only [ParseWithClaims, Prod.mk.injEq, Option.some.injEq] at hp
            rw [← hp.1] at hc
            simp at hc
          | badAlg d =>
            simp only [ParseWithClaims, Prod.mk.injEq, Option.some.injEq] at hp
            rw [← hp.1] at hc
            simp at hc
          | signed d ok =>
            cases ok
            · rw [parse_signed_false] at hp
              simp only [Prod.mk.injEq, Option.some.injEq] at hp
              rw [← hp.1] at hc
              simp at hc
            · rw [parse_signed_true] at hp
              split at hp <;>
                · simp only [Prod.mk.injEq, Option.some.injEq] at hp
                  rw [← hp.1] at hc
                  simp at hc
        | some c =>
          simp only [hc, SignedString, refreshTokenValidTime, Outcome.ret.injEq,
            Prod.mk.injEq, and_true] at h
          exact ⟨_, h.symm, by norm_num⟩
  obtain ⟨c0, hr, he⟩ := key
  subst hr
  have hp : ∃ rerr, ParseWithClaims now (TokenString.signed c0 true) =
      (some { Claims := some c0, Valid := decide (claimsFlags now c0 = 0) }, rerr) := by
    rw [parse_signed_true]
    split
    · exact ⟨none, by simp [*]⟩
    · exact ⟨some (GoError.validation (claimsFlags now c0)), by simp [*]⟩
  obtain ⟨rerr, hp⟩ := hp
  have hu := updateRefreshTokenExpiration_claims now _ _ rerr c0 hp rfl
  refine ⟨c0, { Role := c0.Role, Id := c0.Id, ExpiresAt := now + 259200 }, rfl, ?_, ?_, ?_⟩
  · rw [check_on_valid_path now s a _ ha, hu]
  · simp only [he]; omega
  · simp only [he]; omega

/-- Witness of C9 (amended): a refresh token issued at second 1000 and presented
at second 2000 with a valid access token. -/
theorem C9_renewed_expiry_not_earlier_witness :
    ∃ c0 c1, (createRefreshTokenString 1000 sampleStore "alice" "admin").1.1 =
        TokenString.signed c0 true ∧
      CheckAndRefreshTokens 2000 sampleStore validAccess
          (createRefreshTokenString 1000 sampleStore "alice" "admin").1.1 =
        (Outcome.ret (TokenString.signed c1 true, validAccess, none), sampleStore) ∧
      c0.ExpiresAt ≤ c1.ExpiresAt ∧
      (c0.ExpiresAt < c1.ExpiresAt ↔ (1000 : Int) < 2000) :=
  C9_renewed_expiry_not_earlier 1000 2000 sampleStore sampleStore "alice" "admin"
    validAccess (createRefreshTokenString 1000 sampleStore "alice" "admin").1.1
    (by decide) (by decide) (Or.inl rfl)

/-- C10: on the access-valid path the store is neither read nor written: for
every refresh token the store after the call is the store before it, and the
outcome of the call (the returned triple, or the panic on a refresh string that
cannot be split) is the same for any two store states. -/
theorem C10_valid_path_ignores_store (now : Int) (a r : TokenString) (s s2 : Store)
    (ha : accessValid now a = true) :
    (CheckAndRefreshTokens now s a r).2 = s ∧
    (CheckAndRefreshTokens now s a r).1 = (CheckAndRefreshTokens now s2 a r).1 := by
  rw [check_on_valid_path now s a r ha, check_on_valid_path now s2 a r ha]
  cases updateRefreshTokenExpiration now r with
  | panic => exact ⟨rfl, rfl⟩
  | ret v => exact ⟨rfl, rfl⟩

/-- Witness of C10: alice's valid access token with a refresh token whose
identifier is live in the first store and revoked in the second. -/
theorem C10_valid_path_ignores_store_witness :
    (CheckAndRefreshTokens 2000 sampleStore validAccess liveRefresh).2 = sampleStore ∧
    (CheckAndRefreshTokens 2000 sampleStore validAccess liveRefresh).1 =
      (CheckAndRefreshTokens 2000 { live := [] } validAccess liveRefresh).1 :=
  C10_valid_path_ignores_store 2000 validAccess liveRefresh sampleStore { live := [] }
    (by decide)

/-! ## Lemmas on revocation and issuance -/

/-- On a refresh token that parses as valid, RevokeRefreshToken returns nil and
deletes the identifier the token carries. -/
theorem revoke_of_valid (now : Int) (s : Store) (r : TokenString) (c : TokenClaims)
    (h : ParseWithClaims now r = (some { Claims := some c, Valid := true }, none)) :
    RevokeRefreshToken now s r = (Outcome.ret none, DeleteRefreshToken s c.Id) := by
  unfold RevokeRefreshToken
  rw [h]

/-- Deleting an identifier a second time changes nothing. -/
theorem delete_delete (s : Store) (j : String) :
    DeleteRefreshToken (DeleteRefreshToken s j) j = DeleteRefreshToken s j := by
  simp [DeleteRefreshToken, List.filter_filter]

/-- An expired token does not pass the time checks. -/
theorem claimsFlags_ne_zero_of_expired (now : Int) (c : TokenClaims)
    (he : verifyExp c.ExpiresAt now = false) : claimsFlags now c ≠ 0 := by
  unfold claimsFlags
  rw [he]
  simp only [Bool.false_eq_true, if_false]
  split <;> split <;> decide

/-- C11 as stated fails: alice's correctly signed refresh token `"j1"` expired at
second 1500; revoking it at second 2000 returns an error and `"j1"` is still
live afterwards. -/
theorem C11_counterexample :
    RevokeRefreshToken 2000 sampleStore expiredRefresh =
      (Outcome.ret (some (GoError.text "Could not parse refresh token with claims")),
        sampleStore) ∧
    CheckRefreshToken (RevokeRefreshToken 2000 sampleStore expiredRefresh).2 "j1" = true := by
  decide

/-- C11, amended: RevokeRefreshToken does not ignore expiration. For every
correctly signed refresh token whose expiry is in the past it returns the error
"Could not parse refresh token with claims" and leaves the store as it is, so
the identifier the token carries keeps the liveness it had. -/
theorem C11_revoke_rejects_expired (now : Int) (s : Store) (cr : TokenClaims)
    (he : verifyExp cr.ExpiresAt now = false) :
    RevokeRefreshToken now s (TokenString.signed cr true) =
      (Outcome.ret (some (GoError.text "Could not parse refresh token with claims")),
        s) ∧
    CheckRefreshToken (RevokeRefreshToken now s (TokenString.signed cr true)).2 cr.Id =
      CheckRefreshToken s cr.Id := by
  have hcall : RevokeRefreshToken now s (TokenString.signed cr true) =
      (Outcome.ret (some (GoError.text "Could not parse refresh token with claims")),
        s) := by
    unfold RevokeRefreshToken
    rw [parse_signed_true]
    simp only [claimsFlags_ne_zero_of_expired now cr he, if_false]
  exact ⟨hcall, by rw [hcall]⟩

/-- Witness of C11 (amended): alice's refresh token that expired at 1500,
revoked at second 2000. -/
theorem C11_revoke_rejects_expired_witness :
    RevokeRefreshToken 2000 sampleStore expiredRefresh =
      (Outcome.ret (some (GoError.text "Could not parse refresh token with claims")),
        sampleStore) ∧
    CheckRefreshToken (RevokeRefreshToken 2000 sampleStore expiredRefresh).2 "j1" =
      CheckRefreshToken sampleStore "j1" :=
  C11_revoke_rejects_expired 2000 sampleStore
    { Username := "alice", Role := "admin", Id := "j1", ExpiresAt := 1500 } (by decide)

/-- C12: RevokeRefreshToken is idempotent. For a refresh token that parses as
valid with identifier j it returns nil whether or not j is live; a second call
in a row returns nil again and leaves the store the first call left, in which j
is not live and every other identifier has the liveness it had. -/
theorem C12_revoke_idempotent (now : Int) (s : Store) (r : TokenString)
    (c : TokenClaims)
    (h : ParseWithClaims now r = (some { Claims := some c, Valid := true }, none)) :
    (RevokeRefreshToken now s r).1 = Outcome.ret none ∧
    RevokeRefreshToken now (RevokeRefreshToken now s r).2 r =
      (Outcome.ret none, (RevokeRefreshToken now s r).2) ∧
    CheckRefreshToken (RevokeRefreshToken now s r).2 c.Id = false ∧
    ∀ k, k ≠ c.Id →
      CheckRefreshToken (RevokeRefreshToken now s r).2 k = CheckRefreshToken s k := by
  rw [revoke_of_valid now s r c h]
  refine ⟨rfl, ?_, check_delete_self s c.Id, fun k hk => check_delete_other s c.Id k hk⟩
  rw [revoke_of_valid now _ r c h]
  simp only [delete_delete]

/-- Witness of C12: alice's live refresh token `"j1"` revoked at second 2000. -/
theorem C12_revoke_idempotent_witness :
    (RevokeRefreshToken 2000 sampleStore liveRefresh).1 = Outcome.ret none ∧
    RevokeRefreshToken 2000 (RevokeRefreshToken 2000 sampleStore liveRefresh).2
        liveRefresh =
      (Outcome.ret none, (RevokeRefreshToken 2000 sampleStore liveRefresh).2) ∧
    CheckRefreshToken (RevokeRefreshToken 2000 sampleStore liveRefresh).2 "j1" = false ∧
    ∀ k, k ≠ "j1" →
      CheckRefreshToken (RevokeRefreshToken 2000 sampleStore liveRefresh).2 k =
        CheckRefreshToken sampleStore k :=
  C12_revoke_idempotent 2000 sampleStore liveRefresh
    { Username := "alice", Role := "admin", Id := "j1", ExpiresAt := 200000 }
    (by decide)

/-- No identifier of a list is longer than the bound newJTI computes from it. -/
theorem length_le_bound (used : List String) (x : String) (hx : x ∈ used) :
    x.length ≤ (used.map String.length).foldr max 0 := by
  induction used with
  | nil => simp at hx
  | cons y ys ih =>
    simp only [List.map_cons, List.foldr_cons]
    rcases List.mem_cons.mp hx with h | h
    · subst h
      exact le_max_left _ _
    · exact le_trans (ih h) (le_max_right _ _)

/-- The identifier newJTI makes is not in the list it is made from. -/
theorem newJTI_not_mem (used : List String) : newJTI used ∉ used := by
  intro h
  have hle := length_le_bound used (newJTI used) h
  have hlen : (newJTI used).length = (used.map String.length).foldr max 0 + 1 := by
    simp [newJTI, String.length]
  omega

/-- What CreateNewTokens returns: the two signed strings, a nil error, and the
store with the new identifier registered. -/
theorem CreateNewTokens_eq (now : Int) (s : Store) (username role : String) :
    CreateNewTokens now s username role =
      ((TokenString.signed
          { Username := username, Role := role, ExpiresAt := now + 900 } true,
        TokenString.signed
          { Username := username, Role := role, Id := newJTI s.live,
            ExpiresAt := now + 259200 } true,
        none),
       { live := newJTI s.live :: s.live }) := by
  simp only [CreateNewTokens, createAuthTokenString, createRefreshTokenString,
    StoreRefreshToken, SignedString, authTokenValidTime, refreshTokenValidTime]
  rfl

/-- C13: for every username and role, CreateNewTokens returns (access, refresh,
nil). The access token decodes to that username and role with no identifier and
the expiry now + 900 (15 minutes). The refresh token decodes to that username
and role, carries the identifier that StoreRefreshToken registered (live
afterwards), and has the expiry now + 259200 (72 hours). -/
theorem C13_issued_pair (now : Int) (s : Store) (username role : String) :
    CreateNewTokens now s username role =
      ((TokenString.signed
          { Username := username, Role := role, Id := "", ExpiresAt := now + 900 } true,
        TokenString.signed
          { Username := username, Role := role, Id := (StoreRefreshToken s).1.JTI,
            ExpiresAt := now + 259200 } true,
        none),
       (StoreRefreshToken s).2) ∧
    ParseWithClaims now (CreateNewTokens now s username role).1.1 =
      (some { Claims := some { Username := username, Role := role, Id := "",
                               ExpiresAt := now + 900 },
              Valid := true }, none) ∧
    ParseWithClaims now (CreateNewTokens now s username role).1.2.1 =
      (some { Claims := some { Username := username, Role := role,
                               Id := (StoreRefreshToken s).1.JTI,
                               ExpiresAt := now + 259200 },
              Valid := true }, none) ∧
    CheckRefreshToken (CreateNewTokens now s username role).2
      (StoreRefreshToken s).1.JTI = true := by
  rw [CreateNewTokens_eq]
  refine ⟨rfl, ?_, ?_, ?_⟩
  · rw [parse_valid_iff]
    exact ⟨rfl, claimsFlags_fresh now _ (by simp only; omega) rfl rfl⟩
  · rw [parse_valid_iff]
    exact ⟨rfl, claimsFlags_fresh now _ (by simp only; omega) rfl rfl⟩
  · simp [CheckRefreshToken, StoreRefreshToken]

/-- C16: CreateNewTokens deletes nothing. Every identifier that is live before
the call is live after it, and the live identifiers after the call are those
before it together with exactly one identifier that was not live before (the
one carried by the new refresh token). -/
theorem C16_login_keeps_sessions (now : Int) (s : Store) (username role : String) :
    (∀ j, CheckRefreshToken s j = true →
      CheckRefreshToken (CreateNewTokens now s username role).2 j = true) ∧
    ∃ n, CheckRefreshToken s n = false ∧
      (CreateNewTokens now s username role).2.live = n :: s.live ∧
      (∃ c, (CreateNewTokens now s username role).1.2.1 = TokenString.signed c true ∧
        c.Id = n) ∧
      ∀ k, CheckRefreshToken (CreateNewTokens now s username role).2 k =
        (CheckRefreshToken s k || decide (k = n)) := by
  rw [CreateNewTokens_eq]
  refine ⟨?_, newJTI s.live, ?_, rfl, ⟨_, rfl, rfl⟩, ?_⟩
  · intro j hj
    simp only [CheckRefreshToken, decide_eq_true_eq] at hj
    simp [CheckRefreshToken, hj]
  · simp [CheckRefreshToken, newJTI_not_mem]
  · intro k
    simp only [CheckRefreshToken, List.mem_cons]
    by_cases h1 : k = newJTI s.live <;> by_cases h2 : k ∈ s.live <;> simp [h1, h2]

/-! ## Lemmas on the failure paths -/

/-- A token returned together with an error is not marked valid. -/
theorem parse_error_not_valid (now : Int) (t : TokenString) (tok : Token)
    (e : GoError) (h : ParseWithClaims now t = (some tok, some e)) :
    tok.Valid = false := by
  cases t with
  | unsplit x => simp [ParseWithClaims] at h
  | badHeader x =>
    simp only [ParseWithClaims, Prod.mk.injEq, Option.some.injEq] at h
    rw [← h.1]
  | badClaims d =>
    simp only [ParseWithClaims, Prod.mk.injEq, Option.some.injEq] at h
    rw [← h.1]
  | badAlg d =>
    simp only [ParseWithClaims, Prod.mk.injEq, Option.some.injEq] at h
    rw [← h.1]
  | signed d ok =>
    cases ok
    · rw [parse_signed_false] at h
      simp only [Prod.mk.injEq, Option.some.injEq] at h
      rw [← h.1]
    · rw [parse_signed_true] at h
      split at h
      · simp at h
      · simp only [Prod.mk.injEq, Option.some.injEq] at h
        rw [← h.1]

/-- When the not-before check is the only failing time check of a correctly
signed token, the parser reports exactly the not-valid-yet bit. -/
theorem parse_not_valid_yet (now : Int) (c : TokenClaims)
    (h : claimsFlags now c = ValidationErrorNotValidYet) :
    ParseWithClaims now (TokenString.signed c true) =
      (some { Claims := some c, Valid := false },
        some (GoError.validation ValidationErrorNotValidYet)) := by
  rw [parse_signed_true, h]
  rfl

/-- An access token whose validation error has neither the expired bit nor the
not-valid-yet bit, and that the parser can split, makes the call return that
error at once, with empty strings, whatever the refresh token and the store
are; the store is unchanged. -/
theorem error_without_renewal_bits_propagated (now : Int) (s : Store)
    (a r : TokenString) (atok : Token) (flags : Nat)
    (ha : ParseWithClaims now a = (some atok, some (GoError.validation flags)))
    (hm : flags &&& (ValidationErrorExpired ||| ValidationErrorNotValidYet) = 0) :
    CheckAndRefreshTokens now s a r =
      (Outcome.ret (emptyString, emptyString, some (GoError.validation flags)), s) := by
  have hv := parse_error_not_valid now a atok _ ha
  unfold CheckAndRefreshTokens
  rw [ha]
  simp only [hv, Bool.and_false, Bool.false_eq_true, if_false, hm, ne_eq,
    not_true_eq_false]

/-- A correctly signed access token whose only failure is the not-before check
takes the renewal branch: with a refresh token that parses as valid and whose
identifier is live, the call returns a nil error and a new access token for the
username and role of the old one. -/
theorem not_valid_yet_renewed (now : Int) (s : Store) (ca cr : TokenClaims)
    (ha : claimsFlags now ca = ValidationErrorNotValidYet)
    (hr : claimsFlags now cr = 0)
    (hl : CheckRefreshToken s cr.Id = true) :
    CheckAndRefreshTokens now s (TokenString.signed ca true)
        (TokenString.signed cr true) =
      (Outcome.ret
        (TokenString.signed
          { Role := cr.Role, Id := cr.Id, ExpiresAt := now + 259200 } true,
         TokenString.signed
          { Username := ca.Username, Role := ca.Role, ExpiresAt := now + 900 } true,
         none), s) := by
  have hpa := parse_not_valid_yet now ca ha
  have hpr : ParseWithClaims now (TokenString.signed cr true) =
      (some { Claims := some cr, Valid := true }, none) := by
    rw [parse_signed_true, hr]; rfl
  simp [CheckAndRefreshTokens, updateAuthTokenString, updateRefreshTokenExpiration,
    createAuthTokenString, SignedString, hpa, hpr, hl, ValidationErrorExpired,
    ValidationErrorNotValidYet, authTokenValidTime, refreshTokenValidTime]

/-- C14, at the failing input: alice's correctly signed access token carries no
expiry and the not-before instant 9000, so at second 2000 its only validation
failure is "not valid yet" (the parser reports the bit 128 alone) and it has
not expired. Presented with her valid live refresh token it is not rejected:
the renewal branch is taken, the call returns a nil error, a renewed refresh
token and a new access token for alice/admin that carries no not-before
instant. With the same access token and a refresh token whose identifier is not
live the answer is Unauthorized, so the refresh token and the store are
consulted. -/
theorem C14_not_yet_valid_access_is_renewed :
    ParseWithClaims 2000 earlyAccess =
      (some { Claims := some { Username := "alice", Role := "admin", NotBefore := 9000 },
              Valid := false },
        some (GoError.validation 128)) ∧
    CheckAndRefreshTokens 2000 sampleStore earlyAccess liveRefresh =
      (Outcome.ret
        (TokenString.signed { Role := "admin", Id := "j1", ExpiresAt := 261200 } true,
         TokenString.signed { Username := "alice", Role := "admin", ExpiresAt := 2900 } true,
         none), sampleStore) ∧
    CheckAndRefreshTokens 2000 sampleStore earlyAccess revokedRefresh =
      (Outcome.ret (emptyString, emptyString, some Unauthorized), sampleStore) := by
  decide

/-- C15, at the failing inputs: a token string that the parser cannot split
makes the call panic instead of returning an error. For an access string of
that kind the nil token is dereferenced at once, for every refresh string and
store; for a refresh string of that kind the nil token is dereferenced on the
access-valid path and on the access-expired path. -/
theorem C15_unsplit_token_panics (now : Int) (s : Store) (x : String)
    (r : TokenString) :
    CheckAndRefreshTokens now s (TokenString.unsplit x) r = (Outcome.panic, s) ∧
    CheckAndRefreshTokens 2000 sampleStore validAccess (TokenString.unsplit "") =
      (Outcome.panic, sampleStore) ∧
    CheckAndRefreshTokens 2000 sampleStore expiredAccess (TokenString.unsplit "") =
      (Outcome.panic, sampleStore) := by
  refine ⟨rfl, ?_, ?_⟩ <;> decide

/-- On the access-expired path, a refresh token that carries claims and is not
marked valid is answered with Unauthorized. -/
theorem expired_path_unaccepted (now : Int) (s : Store) (a r : TokenString)
    (rtok : Token) (rerr : Option GoError) (c : TokenClaims)
    (ha : accessExpiredPath now a = true)
    (hr : ParseWithClaims now r = (some rtok, rerr))
    (hc : rtok.Claims = some c) (hv : rtok.Valid = false) :
    (CheckAndRefreshTokens now s a r).1 =
      Outcome.ret (emptyString, emptyString, some Unauthorized) := by
  rw [check_on_expired_path now s a r ha]
  unfold updateAuthTokenString
  rw [hr]
  by_cases hl : CheckRefreshToken s c.Id = true
  · simp only [hc, hv, hl, Bool.false_eq_true, if_false, if_true]
  · simp only [hc, hl, Bool.false_eq_true, if_false]

/-- When updateAuthTokenString returns no error, the string it returns is
signed from the username and the role of the auth token it was given. -/
theorem updateAuthTokenString_success (now : Int) (s s1 : Store)
    (a r x : TokenString)
    (h : updateAuthTokenString now s a r = (Outcome.ret (x, none), s1)) :
    ∃ atok aerr ca, ParseWithClaims now a = (some atok, aerr) ∧
      atok.Claims = some ca ∧
      x = TokenString.signed
        { Username := ca.Username, Role := ca.Role, ExpiresAt := now + 900 } true := by
  unfold updateAuthTokenString at h
  rcases hpr : ParseWithClaims now r with ⟨rtok, rerr⟩
  rw [hpr] at h
  cases rtok with
  | none => simp at h
  | some rtok =>
    cases hc : rtok.Claims with
    | none =>
      simp only [hc, Prod.mk.injEq, Outcome.ret.injEq] at h
      have hn : rerr = none := h.1.2
      subst hn
      have := (parse_no_error now r rtok hpr).1
      rw [hc] at this
      simp at this
    | some c =>
      simp only [hc] at h
      by_cases hl : CheckRefreshToken s c.Id = true
      · simp only [hl, if_true] at h
        by_cases hv : rtok.Valid = true
        · simp only [hv, if_true] at h
          rcases hpa : ParseWithClaims now a with ⟨atok, aerr⟩
          rw [hpa] at h
          cases atok with
          | none => simp at h
          | some atok =>
            cases hca : atok.Claims with
            | none =>
              simp only [hca, Prod.mk.injEq, Outcome.ret.injEq] at h
              have hn : aerr = none := h.1.2
              subst hn
              have := (parse_no_error now a atok hpa).1
              rw [hca] at this
              simp at this
            | some ca =>
              simp only [hca, createAuthTokenString, SignedString, authTokenValidTime,
                Prod.mk.injEq, Outcome.ret.injEq, and_true] at h
              exact ⟨atok, aerr, ca, rfl, hca, by rw [← h.1]; norm_num⟩
        · simp only [hv, if_false] at h
          simp [Unauthorized] at h
      · simp only [hl, if_false] at h
        simp [Unauthorized] at h

/-- C17 as stated fails on the access-valid path: at second 2000, with alice's
valid access token, a refresh token whose signature does not verify and that
names the identifier `"j1"` comes back as a refresh token signed by the server,
carrying the role and the identifier read from the unverified token. -/
theorem C17_counterexample :
    CheckAndRefreshTokens 2000 sampleStore validAccess unverifiedRefresh =
      (Outcome.ret
        (TokenString.signed { Role := "user", Id := "j1", ExpiresAt := 261200 } true,
         validAccess, none), sampleStore) := by
  decide

/-- C17, amended: for a refresh token whose signature does not verify, the
server returns a refresh token it has signed exactly on the access-valid path,
where the refresh token is not checked: there the call returns the role and the
identifier read from the presented token, signed with the expiry now + 259200.
When the access token is not valid, no call returns a nil error, so no signed
refresh token is returned; on the access-expired path the error is
Unauthorized. -/
theorem C17_unverified_refresh_resigned_on_valid_path (now : Int) (s : Store)
    (a : TokenString) (c : TokenClaims) :
    (accessValid now a = true →
      CheckAndRefreshTokens now s a (TokenString.signed c false) =
        (Outcome.ret
          (TokenString.signed
            { Role := c.Role, Id := c.Id, ExpiresAt := now + 259200 } true,
           a, none), s)) ∧
    (accessValid now a = false →
      ∀ (nr na : TokenString) (s1 : Store),
        CheckAndRefreshTokens now s a (TokenString.signed c false) ≠
          (Outcome.ret (nr, na, none), s1)) ∧
    (accessExpiredPath now a = true →
      (CheckAndRefreshTokens now s a (TokenString.signed c false)).1 =
        Outcome.ret (emptyString, emptyString, some Unauthorized)) := by
  have hp := parse_signed_false now c
  refine ⟨?_, ?_, ?_⟩
  · intro hv
    rw [check_on_valid_path now s a _ hv,
      updateRefreshTokenExpiration_claims now _ _ _ c hp rfl]
  · intro hv nr na s1 h
    rcases success_path now s s1 a _ nr na h with h1 | h2
    · rw [hv] at h1
      exact Bool.false_ne_true h1
    · have hu := expired_path_unaccepted now s a _ _ _ c h2 hp rfl rfl
      rw [h] at hu
      simp at hu
  · intro he
    exact expired_path_unaccepted now s a _ _ _ c he hp rfl rfl

/-- Witness of C17 (amended), at second 2000, for the unverified refresh token
naming `"j1"`: with alice's valid access token it is re-signed; with her
expired access token the call fails with Unauthorized. -/
theorem C17_unverified_refresh_resigned_on_valid_path_witness :
    CheckAndRefreshTokens 2000 sampleStore validAccess unverifiedRefresh =
      (Outcome.ret
        (TokenString.signed { Role := "user", Id := "j1", ExpiresAt := 2000 + 259200 } true,
         validAccess, none), sampleStore) ∧
    (CheckAndRefreshTokens 2000 sampleStore expiredAccess unverifiedRefresh).1 =
      Outcome.ret (emptyString, emptyString, some Unauthorized) :=
  ⟨(C17_unverified_refresh_resigned_on_valid_path 2000 sampleStore validAccess
      { Username := "mallory", Role := "user", Id := "j1", ExpiresAt := 200000 }).1
      (by decide),
   (C17_unverified_refresh_resigned_on_valid_path 2000 sampleStore expiredAccess
      { Username := "mallory", Role := "user", Id := "j1", ExpiresAt := 200000 }).2.2
      (by decide)⟩

/-- C18 as stated fails: at second 2000 alice's expired access token presented
with the valid live refresh token of bob (role user) yields a new access token
for alice with the role admin, not for bob. -/
theorem C18_counterexample :
    CheckAndRefreshTokens 2000 sampleStore expiredAccess bobRefresh =
      (Outcome.ret
        (TokenString.signed { Role := "user", Id := "j2", ExpiresAt := 261200 } true,
         TokenString.signed { Username := "alice", Role := "admin", ExpiresAt := 2900 } true,
         none), sampleStore) ∧
    ("alice", "admin") ≠ ("bob", "user") := by
  decide

/-- C18, amended: whenever CheckAndRefreshTokens returns a nil error on the
access-expired path, the new access token carries the username and the role
read from the presented access token (with the expiry now + 900), whatever
username and role the refresh token carries. -/
theorem C18_minted_identity_from_access (now : Int) (s s1 : Store)
    (a r nr na : TokenString)
    (ha : accessExpiredPath now a = true)
    (h : CheckAndRefreshTokens now s a r = (Outcome.ret (nr, na, none), s1)) :
    ∃ atok aerr ca, ParseWithClaims now a = (some atok, aerr) ∧
      atok.Claims = some ca ∧
      na = TokenString.signed
        { Username := ca.Username, Role := ca.Role, ExpiresAt := now + 900 } true := by
  rw [check_on_expired_path now s a r ha] at h
  rcases hq : updateAuthTokenString now s a r with ⟨o, s2⟩
  rw [hq] at h
  cases o with
  | panic => simp at h
  | ret v =>
    obtain ⟨x, e⟩ := v
    cases e with
    | some e => simp at h
    | none =>
      obtain ⟨atok, aerr, ca, h1, h2, h3⟩ :=
        updateAuthTokenString_success now s s2 a r x hq
      refine ⟨atok, aerr, ca, h1, h2, ?_⟩
      simp only at h
      cases hu : updateRefreshTokenExpiration now r with
      | panic => rw [hu] at h; simp at h
      | ret w =>
        obtain ⟨y, e2⟩ := w
        rw [hu] at h
        cases e2 with
        | some e2 => simp at h
        | none =>
          simp only [Prod.mk.injEq, Outcome.ret.injEq] at h
          rw [← h.1.2.1]
          exact h3

/-- Witness of C18 (amended): alice's expired access token with bob's live
refresh token at second 2000. -/
theorem C18_minted_identity_from_access_witness :
    ∃ atok aerr ca, ParseWithClaims 2000 expiredAccess = (some atok, aerr) ∧
      atok.Claims = some ca ∧
      TokenString.signed { Username := "alice", Role := "admin", ExpiresAt := 2900 } true =
        TokenString.signed
          { Username := ca.Username, Role := ca.Role, ExpiresAt := 2000 + 900 } true :=
  C18_minted_identity_from_access 2000 sampleStore sampleStore expiredAccess bobRefresh
    (TokenString.signed { Role := "user", Id := "j2", ExpiresAt := 261200 } true)
    (TokenString.signed { Username := "alice", Role := "admin", ExpiresAt := 2900 } true)
    (by decide) (by decide)

end Insapp
